import Mathlib

/-!
Verification of the Dagger repository (client pipeline builder plus the
specified synthesis orchestrator interfaces).

Part 1 embeds the pipeline-specification and execution-engine data model.
The Execution Engine itself is not present under src/ (only the server
entrypoint and the client components are), so it is modelled from the spec
(sections 3, 4.3 and 8), with an explicit environment record carrying the
wall clock and a random seed so that independence from ambient state is a
provable statement rather than an implicit convention.

Part 2 embeds, from src/client/components/pipelines/pipeline-form.tsx,
the LiveBuilderModal reducer, its initial state, the payloads dispatched by
runPipeline and by the phase simulation, the close-time reset, handleCancel,
and the PipelineForm submit handler.
-/

namespace Dagger

/-! ### Part 1: spec-modelled pipeline model and execution engine -/

/-- Modelled from the spec: normalisation modes for the normalize-field
operation kind (section 3 operation vocabulary). -/
inductive NormalizeMode
  | lowercase
  | uppercase
  | trimEnds
deriving DecidableEq

/-- Modelled from the spec: the fixed, enumerated operation vocabulary of a
pipeline specification (section 3). Each kind carries its typed parameters. -/
inductive Operation
  | filter (column value : String)
  | normalizeField (field : String) (mode : NormalizeMode)
  | deduplicate (key : String)
  | sortBy (column : String) (ascending : Bool)
  | selectColumns (cols : List String)
  | deriveColumn (name source : String)
deriving DecidableEq

/-- Modelled from the spec: PipelineSpecification (section 3): an id, a
monotonic version, an ordered operation list and the originating prompt. -/
structure PipelineSpecification where
  id : String
  version : Nat
  operations : List Operation
  created_from_prompt : String
deriving DecidableEq

/-- Modelled from the spec: TabularValue (section 3): ordered headers and
ordered rows, each row a mapping from column name to raw value. -/
structure TabularValue where
  headers : List String
  rows : List (List (String × String))
deriving DecidableEq

/-- Modelled from the spec: a structured execution failure with
operation-level attribution and a bounded sample of offending rows
(section 4.3). -/
structure ExecutionFailure where
  operation_index : Nat
  message : String
  sample : List (List (String × String))
deriving DecidableEq

/-- Modelled from the spec: the ambient state an operation is forbidden to
consult (section 4.3 determinism requirement: no wall-clock time, no random
seeds, no external state). -/
structure ExecutionEnv where
  wallClock : Nat
  randomSeed : Nat
deriving DecidableEq

/-- Look up the raw value of a column in one row. -/
def lookupCell (row : List (String × String)) (col : String) : Option String :=
  (row.find? fun cell => cell.fst == col).map Prod.snd

/-- Character-list lowercase, the behaviour of toLowerCase on a string seen
as its list of characters. -/
def lowerString (s : String) : String :=
  ⟨s.data.map Char.toLower⟩

/-- Character-list uppercase. -/
def upperString (s : String) : String :=
  ⟨s.data.map Char.toUpper⟩

/-- Drop leading and trailing whitespace from a character list. -/
def trimChars (cs : List Char) : List Char :=
  ((cs.dropWhile Char.isWhitespace).reverse.dropWhile Char.isWhitespace).reverse

/-- Character-list trim, the behaviour of trim on a string seen as its list
of characters: leading and trailing whitespace removed. -/
def trimString (s : String) : String :=
  ⟨trimChars s.data⟩

/-- Apply one normalisation mode to a raw value. -/
def normalizeValue : NormalizeMode → String → String
  | .lowercase, v => lowerString v
  | .uppercase, v => upperString v
  | .trimEnds, v => trimString v

/-- Bounded sample of rows attached to a failure (section 3: sample context
is bounded in size). -/
def sampleRows (t : TabularValue) : List (List (String × String)) :=
  t.rows.take 3

/-- Keep the first row for each key value (explicit keep-first tie-break, as
required by section 4.3 for deduplicate). -/
def dedupRows (key : String) : List String → List (List (String × String)) →
    List (List (String × String))
  | _, [] => []
  | seen, r :: rs =>
      let v := (lookupCell r key).getD ""
      if seen.contains v then dedupRows key seen rs
      else r :: dedupRows key (v :: seen) rs

/-- Insert a row into a list sorted by the given column. -/
def insertBy (key : String) (asc : Bool) (row : List (String × String)) :
    List (List (String × String)) → List (List (String × String))
  | [] => [row]
  | r :: rs =>
      let a := (lookupCell row key).getD ""
      let b := (lookupCell r key).getD ""
      if (if asc then decide (a ≤ b) else decide (b ≤ a)) then row :: r :: rs
      else r :: insertBy key asc row rs

/-- Insertion sort of rows by a column value. -/
def sortRows (key : String) (asc : Bool)
    (rows : List (List (String × String))) : List (List (String × String)) :=
  rows.foldr (insertBy key asc) []

/-- Runtime failure message for a reference to a column that is not present
at this point of the pipeline (section 4.3). -/
def missingColumnMessage (col : String) : String :=
  "column not present: " ++ col

/-- Modelled from the spec: apply a single operation to a TabularValue
(section 4.3). A reference to a missing column is a runtime failure carrying
the operation index and a bounded row sample. The environment argument is
deliberately ignored by every operation kind: the vocabulary is closed and
single-pass, which is the source of the determinism guarantee. -/
def applyOperation (_env : ExecutionEnv) (idx : Nat) (op : Operation)
    (t : TabularValue) : Except ExecutionFailure TabularValue :=
  match op with
  | .filter col v =>
      if t.headers.contains col then
        .ok ⟨t.headers, t.rows.filter fun r => (lookupCell r col).getD "" == v⟩
      else .error ⟨idx, missingColumnMessage col, sampleRows t⟩
  | .normalizeField f mode =>
      if t.headers.contains f then
        .ok ⟨t.headers, t.rows.map fun r => r.map fun cell =>
          if cell.fst == f then (cell.fst, normalizeValue mode cell.snd) else cell⟩
      else .error ⟨idx, missingColumnMessage f, sampleRows t⟩
  | .deduplicate key =>
      if t.headers.contains key then
        .ok ⟨t.headers, dedupRows key [] t.rows⟩
      else .error ⟨idx, missingColumnMessage key, sampleRows t⟩
  | .sortBy col asc =>
      if t.headers.contains col then
        .ok ⟨t.headers, sortRows col asc t.rows⟩
      else .error ⟨idx, missingColumnMessage col, sampleRows t⟩
  | .selectColumns cols =>
      if cols.all (fun c => t.headers.contains c) then
        .ok ⟨cols, t.rows.map fun r => cols.map fun c => (c, (lookupCell r c).getD "")⟩
      else .error ⟨idx, missingColumnMessage (String.intercalate "," cols), sampleRows t⟩
  | .deriveColumn name source =>
      if t.headers.contains source then
        .ok ⟨t.headers ++ [name], t.rows.map fun r =>
          r ++ [(name, (lookupCell r source).getD "")]⟩
      else .error ⟨idx, missingColumnMessage source, sampleRows t⟩

/-- Apply the operations strictly in order, halting at the first failure
(section 4.3). -/
def runOps (env : ExecutionEnv) : List Operation → Nat → TabularValue →
    Except ExecutionFailure TabularValue
  | [], _, t => .ok t
  | op :: rest, idx, t =>
      match applyOperation env idx op t with
      | .error e => .error e
      | .ok t2 => runOps env rest (idx + 1) t2

/-- Modelled from the spec: the Execution Engine entry point (section 4.3),
with the ambient environment made explicit. -/
def executeEnv (env : ExecutionEnv) (spec : PipelineSpecification)
    (input : TabularValue) : Except ExecutionFailure TabularValue :=
  runOps env spec.operations 0 input

/-- Execution at a fixed reference environment. -/
def execute (spec : PipelineSpecification) (input : TabularValue) :
    Except ExecutionFailure TabularValue :=
  executeEnv ⟨0, 0⟩ spec input

/-! ### Part 2: client embedding of pipeline-form.tsx -/

/-- AgentPhase from the client types, as used by LiveBuilderModal. -/
inductive AgentPhase
  | analyzing
  | generating
  | validating
  | executing
  | evaluating
  | complete
  | failed
deriving DecidableEq

/-- The two terminal status values a run can end with. -/
inductive FinalStatus
  | success
  | failed
deriving DecidableEq

/-- One entry of the validationErrors list built by runPipeline: the
iteration it belongs to, the error messages, a timestamp string and the
fixed flag. -/
structure ValidationEntry where
  iteration : Nat
  errors : List String
  timestamp : String
  fixed : Bool
deriving DecidableEq

/-- The LiveBuilderModal reducer state: LiveBuilderState extended with
previousSpec, exactly the State interface of pipeline-form.tsx. -/
structure State where
  runId : String
  phase : AgentPhase
  currentIteration : Nat
  maxIterations : Nat
  currentSpec : Option PipelineSpecification
  validationErrors : List ValidationEntry
  isComplete : Bool
  finalStatus : Option FinalStatus
  previousSpec : Option PipelineSpecification
deriving DecidableEq

/-- A Partial LiveBuilderState payload for the UPDATE action: an outer none
models an absent property, and for the nullable spec and status fields the
inner Option models null. -/
structure UpdatePayload where
  runId : Option String
  phase : Option AgentPhase
  currentIteration : Option Nat
  maxIterations : Option Nat
  currentSpec : Option (Option PipelineSpecification)
  validationErrors : Option (List ValidationEntry)
  isComplete : Option Bool
  finalStatus : Option (Option FinalStatus)
  previousSpec : Option (Option PipelineSpecification)
deriving DecidableEq

/-- The payload with every property absent. -/
def emptyPayload : UpdatePayload :=
  ⟨none, none, none, none, none, none, none, none, none⟩

/-- The reducer action type of pipeline-form.tsx: UPDATE with a partial
state, or SET_PREVIOUS_SPEC with a spec-or-null payload. -/
inductive Action
  | update (payload : UpdatePayload)
  | setPreviousSpec (payload : Option PipelineSpecification)

/-- The object spread of state and payload: a property present in the
payload wins, an absent property keeps the state value. -/
def applyPayload (s : State) (p : UpdatePayload) : State :=
  { runId := p.runId.getD s.runId
    phase := p.phase.getD s.phase
    currentIteration := p.currentIteration.getD s.currentIteration
    maxIterations := p.maxIterations.getD s.maxIterations
    currentSpec := p.currentSpec.getD s.currentSpec
    validationErrors := p.validationErrors.getD s.validationErrors
    isComplete := p.isComplete.getD s.isComplete
    finalStatus := p.finalStatus.getD s.finalStatus
    previousSpec := p.previousSpec.getD s.previousSpec }

/-- The reducer of pipeline-form.tsx. For UPDATE it spreads the payload over
the state and then overrides previousSpec: when the payload carries a
currentSpec property (even null), previousSpec becomes the old currentSpec,
otherwise it is kept. For SET_PREVIOUS_SPEC it sets previousSpec directly. -/
def reducer (s : State) : Action → State
  | .update p =>
      { applyPayload s p with
        previousSpec := if p.currentSpec.isSome then s.currentSpec else s.previousSpec }
  | .setPreviousSpec v => { s with previousSpec := v }

/-- getInitialState from pipeline-form.tsx. -/
def getInitialState (runId : String) : State :=
  { runId := runId
    phase := .analyzing
    currentIteration := 0
    maxIterations := 3
    currentSpec := none
    validationErrors := []
    isComplete := false
    finalStatus := none
    previousSpec := none }

/-- A full State viewed as an UPDATE payload with every property present,
which is how the close-time reset dispatches getInitialState. -/
def stateAsPayload (s : State) : UpdatePayload :=
  ⟨some s.runId, some s.phase, some s.currentIteration, some s.maxIterations,
   some s.currentSpec, some s.validationErrors, some s.isComplete,
   some s.finalStatus, some s.previousSpec⟩

/-- The report field of the createAndRunPipeline response, as read by
runPipeline: the produced spec, the fix-iteration count and the validation
error messages. -/
structure ApiReport where
  pipeline_spec : Option PipelineSpecification
  fix_iterations : Nat
  validation_errors : List String
deriving DecidableEq

/-- The createAndRunPipeline response, as read by runPipeline. -/
structure CreatePipelineResponse where
  run_id : String
  pipeline_id : String
  report : ApiReport
deriving DecidableEq

/-- Outcome of the awaited createAndRunPipeline call: the promise either
resolves with a response or rejects with an error message. -/
inductive ApiOutcome
  | resolved (response : CreatePipelineResponse)
  | rejected (message : String)

/-- The max_fix_iters value the client sends in the request options. -/
def requestMaxFixIters : Nat := 3

/-- The ordered phases the simulation timers dispatch, with timer index
equal to list index. -/
def phaseSchedule : List AgentPhase :=
  [.analyzing, .generating, .validating, .executing, .evaluating]

/-- The payload a simulation timer dispatches: only the phase property. -/
def phasePayload (p : AgentPhase) : UpdatePayload :=
  { emptyPayload with phase := some p }

/-- The validationErrors list built in the success branch of runPipeline:
one entry marked fixed when the response carries errors, else empty. -/
def entryOf (r : ApiReport) (ts : String) : List ValidationEntry :=
  if r.validation_errors.length > 0 then
    [⟨r.fix_iterations, r.validation_errors, ts, true⟩]
  else []

/-- The payload dispatched when createAndRunPipeline resolves. -/
def successPayload (resp : CreatePipelineResponse) (ts : String) : UpdatePayload :=
  { emptyPayload with
    runId := some resp.run_id
    currentSpec := some resp.report.pipeline_spec
    currentIteration := some resp.report.fix_iterations
    phase := some .complete
    isComplete := some true
    finalStatus := some (some .success)
    validationErrors := some (entryOf resp.report ts) }

/-- The payload dispatched in the catch branch of runPipeline. -/
def failurePayload : UpdatePayload :=
  { emptyPayload with
    phase := some .failed
    isComplete := some true
    finalStatus := some (some .failed) }

/-- The terminal payload determined by the API outcome. -/
def terminalPayload : ApiOutcome → String → UpdatePayload
  | .resolved r, ts => successPayload r ts
  | .rejected _, _ => failurePayload

/-- The terminal status determined by the API outcome. -/
def statusOf : ApiOutcome → FinalStatus
  | .resolved _ => .success
  | .rejected _ => .failed

/-- The terminal phase determined by the API outcome. -/
def phaseOf : ApiOutcome → AgentPhase
  | .resolved _ => .complete
  | .rejected _ => .failed

/-- The actions dispatched by the first k simulation timers; at most five
timers exist, so any larger k dispatches all five. -/
def phaseActions (k : Nat) : List Action :=
  (phaseSchedule.take k).map fun p => Action.update (phasePayload p)

/-- All actions one run dispatches while the modal stays open: the phase
simulation timers that fired before the API settled, then the single
terminal dispatch. The finally block clears the remaining timers right
after the terminal dispatch, in the same synchronous continuation, so no
timer action can follow the terminal one. -/
def runEvents (k : Nat) (o : ApiOutcome) (ts : String) : List Action :=
  phaseActions k ++ [Action.update (terminalPayload o ts)]

/-- The intermediate states reached from s by a list of actions, in order. -/
def statesAfter (s : State) : List Action → List State
  | [] => []
  | a :: rest =>
      let s2 := reducer s a
      s2 :: statesAfter s2 rest

/-- The full state trace of one run: the initial state followed by the state
after each dispatched action. -/
def runTrace (k : Nat) (o : ApiOutcome) (ts : String) : List State :=
  getInitialState "pending" :: statesAfter (getInitialState "pending") (runEvents k o ts)

/-- The state a run ends in. -/
def finalState (k : Nat) (o : ApiOutcome) (ts : String) : State :=
  (runEvents k o ts).foldl reducer (getInitialState "pending")

/-- Result of handleCancel in pipeline-form.tsx: it aborts the stored
AbortController and invokes the onCancel callback, and dispatches no
action, so the builder state is returned unchanged. -/
structure CancelResult where
  stateAfter : State
  controllerAborted : Bool
  onCancelInvoked : Bool
deriving DecidableEq

/-- handleCancel from pipeline-form.tsx. -/
def handleCancel (s : State) : CancelResult :=
  ⟨s, true, true⟩

/-- Whether the call site of createAndRunPipeline passes the stored
AbortController signal to the request. In pipeline-form.tsx the request is
built from prompt, data and options only, so the answer is false: aborting
the controller does not affect the in-flight call. -/
def abortSignalWired : Bool := false

/-- The whole modal-level state: the reducer state plus the apiResponse and
error useState cells and the hasStartedRef flag. -/
structure ModalState where
  builder : State
  apiResponse : Option CreatePipelineResponse
  error : Option String
  hasStarted : Bool
deriving DecidableEq

/-- The close-time reset effect of LiveBuilderModal: clear hasStartedRef,
apiResponse and error, and dispatch getInitialState as an UPDATE payload. -/
def closeReset (m : ModalState) : ModalState :=
  { builder := reducer m.builder (.update (stateAsPayload (getInitialState "pending")))
    apiResponse := none
    error := none
    hasStarted := false }

/-- ParsedCSV from the client types: headers and rows of the parsed file. -/
structure ParsedCSV where
  headers : List String
  rows : List (List String)
deriving DecidableEq

/-- The object PipelineForm.handleSubmit passes to onSubmit. -/
structure SubmitPayload where
  prompt : String
  csvContent : String
  parsedData : ParsedCSV
deriving DecidableEq

/-- handleSubmit from PipelineForm: returns none exactly when the guard
returns early (no parsed data, or the trimmed prompt is empty), otherwise
the onSubmit argument, with the prompt trimmed. -/
def handleSubmit (parsedData : Option ParsedCSV) (rawContent prompt : String) :
    Option SubmitPayload :=
  match parsedData with
  | none => none
  | some d =>
      if trimString prompt = "" then none
      else some ⟨trimString prompt, rawContent, d⟩

/-- A concrete specification value used in the counterexamples. -/
def spec0 : PipelineSpecification :=
  ⟨"spec-1", 1, [.deduplicate "email"], "dedupe rows"⟩

/-- A resolved response whose report still carries validation errors. -/
def response0 : CreatePipelineResponse :=
  ⟨"run-1", "pipe-1", ⟨some spec0, 2, ["output column missing"]⟩⟩

/-- A resolved response whose fix-iteration count exceeds the configured
maximum of three. -/
def response1 : CreatePipelineResponse :=
  ⟨"run-2", "pipe-2", ⟨some spec0, 5, ["row count mismatch"]⟩⟩

/-- The transition relation of the state machine claimed in the spec,
section 4.5. -/
def specTransition : AgentPhase → AgentPhase → Bool
  | .analyzing, .generating => true
  | .generating, .validating => true
  | .validating, .executing => true
  | .executing, .evaluating => true
  | .evaluating, .complete => true
  | .evaluating, .failed => true
  | _, _ => false

/-- A concrete parsed dataset used in the witnesses. -/
def pd0 : ParsedCSV := ⟨["email"], [["a@x.com"]]⟩

/-- A concrete post-success modal state: the run that consumed response0 has
finished and its response and flags are still held. -/
def m0 : ModalState :=
  ⟨finalState 5 (.resolved response0) "t0", some response0, none, true⟩

/-- Whether every step of a phase sequence either stays in place or follows
a listed transition of the claimed state machine. -/
def chainOk : List AgentPhase → Bool
  | [] => true
  | [_] => true
  | a :: b :: rest => (a == b || specTransition a b) && chainOk (b :: rest)

/-- The state of a run after two simulation timers, before the API settles:
phase generating, nothing terminal. -/
def midRunState : State :=
  (phaseActions 2).foldl reducer (getInitialState "pending")

/-- A single operation never consults the environment. -/
theorem applyOperation_env_irrelevant (e₁ e₂ : ExecutionEnv) (idx : Nat)
    (op : Operation) (t : TabularValue) :
    applyOperation e₁ idx op t = applyOperation e₂ idx op t := rfl

/-- The operation fold never consults the environment. -/
theorem runOps_env_irrelevant (e₁ e₂ : ExecutionEnv) (ops : List Operation)
    (idx : Nat) (t : TabularValue) :
    runOps e₁ ops idx t = runOps e₂ ops idx t := by
  induction ops generalizing idx t with
  | nil => rfl
  | cons op rest ih =>
      have h2 : applyOperation e₂ idx op t = applyOperation e₁ idx op t := rfl
      simp only [runOps, h2]
      cases applyOperation e₁ idx op t with
      | error e => rfl
      | ok t2 => exact ih (idx + 1) t2

/-- Sanity scenario from spec section 8: lowercase then deduplicate on the
email column keeps exactly one row. -/
theorem demo_execute_scenario :
    execute ⟨"spec-email", 1,
        [.normalizeField "email" .lowercase, .deduplicate "email"],
        "normalize and dedupe"⟩
      ⟨["email"], [[("email", "A@x.com")], [("email", "a@x.com")]]⟩ =
      .ok ⟨["email"], [[("email", "a@x.com")]]⟩ := by
  rfl

/-- A simulation-timer dispatch only moves the phase. -/
theorem reducer_phasePayload (s : State) (p : AgentPhase) :
    reducer s (.update (phasePayload p)) = { s with phase := p } := rfl

/-- Splitting a dispatch list splits the resulting state list. -/
theorem statesAfter_append (s : State) (l1 l2 : List Action) :
    statesAfter s (l1 ++ l2) =
      statesAfter s l1 ++ statesAfter (l1.foldl reducer s) l2 := by
  induction l1 generalizing s with
  | nil => rfl
  | cons a rest ih =>
      simp only [List.cons_append, statesAfter, List.foldl_cons]
      exact congrArg (List.cons (reducer s a)) (ih (reducer s a))

/-- The states produced by a list of timer dispatches: the start state with
the phase replaced by each scheduled phase in turn. -/
theorem statesAfter_phases (s : State) (ps : List AgentPhase) :
    statesAfter s (ps.map fun p => Action.update (phasePayload p)) =
      ps.map fun p => { s with phase := p } := by
  induction ps generalizing s with
  | nil => rfl
  | cons p rest ih =>
      simp only [List.map_cons, statesAfter]
      exact congrArg (List.cons { s with phase := p }) (ih { s with phase := p })

/-- Folding timer dispatches only moves the phase. -/
theorem foldl_phases_ex (s : State) (ps : List AgentPhase) :
    ∃ ph, (ps.map fun p => Action.update (phasePayload p)).foldl reducer s =
      { s with phase := ph } := by
  induction ps generalizing s with
  | nil => exact ⟨s.phase, rfl⟩
  | cons p rest ih =>
      obtain ⟨ph, hph⟩ := ih { s with phase := p }
      exact ⟨ph, hph⟩

/-- The final state of a run is the terminal dispatch applied to the initial
state with some simulated phase. -/
theorem finalState_eq (k : Nat) (o : ApiOutcome) (ts : String) :
    ∃ ph, finalState k o ts =
      reducer { getInitialState "pending" with phase := ph }
        (.update (terminalPayload o ts)) := by
  obtain ⟨ph, hph⟩ := foldl_phases_ex (getInitialState "pending") (phaseSchedule.take k)
  refine ⟨ph, ?_⟩
  unfold finalState runEvents phaseActions
  rw [List.foldl_append, hph]
  rfl

/-- Mapping a projection that ignores the phase over phase-replaced copies
of one state gives a constant list. -/
theorem map_over_phase_states {α : Type} (g : State → α) (s : State)
    (ps : List AgentPhase) (hg : ∀ p, g { s with phase := p } = g s) :
    (ps.map fun p => ({ s with phase := p } : State)).map g =
      List.replicate ps.length (g s) := by
  induction ps with
  | nil => rfl
  | cons p rest ih =>
      simp only [List.map_cons, List.length_cons, List.replicate_succ, hg p]
      exact congrArg (List.cons (g s)) ih

/-- Mapping the phase over phase-replaced copies of one state recovers the
phase list. -/
theorem map_phase_phases (s : State) (ps : List AgentPhase) :
    (ps.map fun p => ({ s with phase := p } : State)).map State.phase = ps := by
  induction ps with
  | nil => rfl
  | cons p rest ih =>
      simp only [List.map_cons]
      exact congrArg (List.cons p) ih

/-! ### Claim theorems -/

/-- Claim C1, counterexample: a run whose createAndRunPipeline call resolves
with a report still carrying validation errors ends with finalStatus
success and a non-empty validation-error list, and a resolved report with
fix_iterations five ends with currentIteration five while maxIterations is
three — so success does not coincide with an empty most-recent error list
and iterations_used is not bounded by max_iterations. -/
theorem c1_counterexample :
    (finalState 5 (.resolved response0) "t0").finalStatus = some .success ∧
    (finalState 5 (.resolved response0) "t0").validationErrors ≠ [] ∧
    (finalState 5 (.resolved response1) "t0").finalStatus = some .success ∧
    (finalState 5 (.resolved response1) "t0").currentIteration = 5 ∧
    (finalState 5 (.resolved response1) "t0").maxIterations = 3 := by
  decide

/-- Claim C1, amended: the client sets the final status from the API outcome
alone: when createAndRunPipeline resolves the run ends with finalStatus
success, currentIteration copied from the response fix_iterations (not
bounded by maxIterations), and any response validation errors recorded as a
single entry marked fixed; when the call rejects the run ends with
finalStatus failed and an unchanged, empty validation-error list. -/
theorem c1_final_status_from_api_outcome (k : Nat)
    (r : CreatePipelineResponse) (m ts : String) :
    (finalState k (.resolved r) ts).finalStatus = some .success ∧
    (finalState k (.resolved r) ts).currentIteration = r.report.fix_iterations ∧
    (finalState k (.resolved r) ts).validationErrors = entryOf r.report ts ∧
    (finalState k (.rejected m) ts).finalStatus = some .failed ∧
    (finalState k (.rejected m) ts).validationErrors = [] := by
  obtain ⟨ph1, h1⟩ := finalState_eq k (.resolved r) ts
  obtain ⟨ph2, h2⟩ := finalState_eq k (.rejected m) ts
  rw [h1, h2]
  exact ⟨rfl, rfl, rfl, rfl, rfl⟩

/-- Claim C2: along every run trace the finalStatus starts as null, stays
null through every simulated-phase update, and is set exactly once, by the
last dispatch, to success or failed according to the API outcome; the run
dispatches nothing after that (the finally block clears the remaining
timers in the same synchronous continuation). -/
theorem c2_final_status_set_exactly_once (k : Nat) (o : ApiOutcome) (ts : String) :
    (runTrace k o ts).map State.finalStatus =
      List.replicate ((phaseSchedule.take k).length + 1) none ++
        [some (statusOf o)] := by
  unfold runTrace runEvents phaseActions
  rw [statesAfter_append, statesAfter_phases]
  obtain ⟨ph, hph⟩ := foldl_phases_ex (getInitialState "pending") (phaseSchedule.take k)
  rw [hph]
  rw [List.map_cons, List.map_append,
    map_over_phase_states State.finalStatus (getInitialState "pending")
      (phaseSchedule.take k) (fun _ => rfl)]
  rw [List.replicate_succ]
  cases o <;> rfl

/-- Claim C3, counterexample: when the API settles after only two simulation
timers, the phase trace runs analyzing, analyzing, generating, complete, and
the step from generating to complete is not one of the listed transitions of
the claimed state machine. -/
theorem c3_counterexample :
    (runTrace 2 (.resolved response0) "t0").map State.phase =
      [.analyzing, .analyzing, .generating, .complete] ∧
    specTransition .generating .complete = false ∧
    chainOk ((runTrace 2 (.resolved response0) "t0").map State.phase) = false := by
  decide

/-- Claim C3, amended: the phase passes in schedule order, without skipping,
through the prefix of analyzing, generating, validating, executing,
evaluating reached before the API settled, then jumps directly from the
current phase to complete (call resolved) or failed (call rejected) — a
jump that may skip intermediate phases; the terminal phase appears only as
the last element, so no transition follows it within the run. -/
theorem c3_phase_trace (k : Nat) (o : ApiOutcome) (ts : String) :
    (runTrace k o ts).map State.phase =
      .analyzing :: (phaseSchedule.take k ++ [phaseOf o]) := by
  unfold runTrace runEvents phaseActions
  rw [statesAfter_append, statesAfter_phases]
  obtain ⟨ph, hph⟩ := foldl_phases_ex (getInitialState "pending") (phaseSchedule.take k)
  rw [hph]
  rw [List.map_cons, List.map_append,
    map_phase_phases (getInitialState "pending") (phaseSchedule.take k)]
  cases o <;> rfl

/-- Claim C4, counterexample: the SET_PREVIOUS_SPEC branch of the reducer
changes previousSpec without the update carrying any new current
specification (currentSpec is untouched), so not every state update that
lacks a new current specification leaves previous_spec unchanged. -/
theorem c4_counterexample :
    (reducer (getInitialState "pending") (.setPreviousSpec (some spec0))).previousSpec =
      some spec0 ∧
    (getInitialState "pending").previousSpec = none ∧
    (reducer (getInitialState "pending") (.setPreviousSpec (some spec0))).currentSpec =
      (getInitialState "pending").currentSpec := by
  decide

/-- Claim C4, amended: for every UPDATE action — the only action the
component dispatches — previousSpec becomes the previously current
specification exactly when the payload carries a currentSpec property (even
a null one), and is left unchanged otherwise, while currentSpec takes the
carried value; the declared but never dispatched SET_PREVIOUS_SPEC action
sets previousSpec directly to its payload. -/
theorem c4_previous_spec_tracking (s : State) (p : UpdatePayload)
    (v : Option PipelineSpecification) :
    (reducer s (.update p)).previousSpec =
      (if p.currentSpec.isSome then s.currentSpec else s.previousSpec) ∧
    (reducer s (.update p)).currentSpec = p.currentSpec.getD s.currentSpec ∧
    (reducer s (.setPreviousSpec v)).previousSpec = v :=
  ⟨rfl, rfl, rfl⟩

/-- Claim C5: maxIterations is three in the initial state, the request sends
max_fix_iters three, and every state of every run trace still carries
maxIterations three — no dispatched payload ever contains the field. -/
theorem c5_max_iterations_fixed (k : Nat) (o : ApiOutcome) (ts : String) :
    (getInitialState "pending").maxIterations = 3 ∧
    requestMaxFixIters = 3 ∧
    (runTrace k o ts).map State.maxIterations =
      List.replicate ((phaseSchedule.take k).length + 1) 3 ++ [3] := by
  refine ⟨rfl, rfl, ?_⟩
  unfold runTrace runEvents phaseActions
  rw [statesAfter_append, statesAfter_phases]
  obtain ⟨ph, hph⟩ := foldl_phases_ex (getInitialState "pending") (phaseSchedule.take k)
  rw [hph]
  rw [List.map_cons, List.map_append,
    map_over_phase_states State.maxIterations (getInitialState "pending")
      (phaseSchedule.take k) (fun _ => rfl)]
  rw [List.replicate_succ]
  cases o <;> rfl

/-- Claim C6, code evidence: with a run in the non-terminal generating phase
and the API call in flight, handleCancel leaves the builder state exactly as
it was — still generating, finalStatus still null — and the AbortController
it aborts is never wired into the createAndRunPipeline request, so the
in-flight call is unaffected and no transition to a failed-with-cancelled
state happens. -/
theorem c6_cancel_leaves_run_nonterminal :
    midRunState.phase = .generating ∧
    midRunState.finalStatus = none ∧
    (handleCancel midRunState).stateAfter = midRunState ∧
    (handleCancel midRunState).controllerAborted = true ∧
    abortSignalWired = false ∧
    (handleCancel midRunState).stateAfter.phase ≠ .complete ∧
    (handleCancel midRunState).stateAfter.phase ≠ .failed := by
  decide

/-- Claim C7: whatever the API outcome, the run handler produces a
structured terminal state — isComplete set, finalStatus success on a
resolved call and failed on a rejected one — rather than letting the error
escape; the catch branch converts every rejection into the failed state. -/
theorem c7_structured_result (k : Nat) (o : ApiOutcome) (ts : String) :
    (finalState k o ts).isComplete = true ∧
    (finalState k o ts).finalStatus = some (statusOf o) ∧
    ((finalState k o ts).finalStatus = some .success ∨
      (finalState k o ts).finalStatus = some .failed) := by
  obtain ⟨ph, h⟩ := finalState_eq k o ts
  rw [h]
  cases o with
  | resolved r => exact ⟨rfl, rfl, Or.inl rfl⟩
  | rejected m => exact ⟨rfl, rfl, Or.inr rfl⟩

/-- Claim C8: execution is deterministic — it is a pure function of the
specification and the input, independent of the ambient environment (wall
clock, random seed), so two invocations on the same spec and input yield
identical output, in row order, values and row count. -/
theorem c8_execute_deterministic (e₁ e₂ : ExecutionEnv)
    (S : PipelineSpecification) (D : TabularValue) :
    executeEnv e₁ S D = executeEnv e₂ S D :=
  runOps_env_irrelevant e₁ e₂ S.operations 0 D

/-- Claim C9: handleSubmit invokes no onSubmit callback when the parsed
dataset is absent or the prompt trims to empty, and whenever it does submit
it passes the trimmed prompt, the raw CSV content and the parsed dataset. -/
theorem c9_submit_guard (pd : Option ParsedCSV) (raw prompt : String) :
    ((pd = none ∨ trimString prompt = "") → handleSubmit pd raw prompt = none) ∧
    (∀ out, handleSubmit pd raw prompt = some out →
      out.prompt = trimString prompt ∧ out.csvContent = raw ∧
        some out.parsedData = pd) := by
  constructor
  · rintro (rfl | h)
    · rfl
    · cases pd with
      | none => rfl
      | some d => simp [handleSubmit, h]
  · intro out h
    cases pd with
    | none => simp [handleSubmit] at h
    | some d =>
      by_cases hp : trimString prompt = ""
      · simp [handleSubmit, hp] at h
      · simp only [handleSubmit, if_neg hp, Option.some.injEq] at h
        subst h
        exact ⟨rfl, rfl, rfl⟩

/-- Claim C9, witness: a whitespace-only prompt with parsed data present is
rejected, and a padded prompt is submitted trimmed. -/
theorem c9_submit_guard_witness :
    handleSubmit (some pd0) "rawdata" "   " = none ∧
    ((⟨"hi", "rawdata", pd0⟩ : SubmitPayload).prompt = trimString "  hi " ∧
      (⟨"hi", "rawdata", pd0⟩ : SubmitPayload).csvContent = "rawdata" ∧
      some (⟨"hi", "rawdata", pd0⟩ : SubmitPayload).parsedData = some pd0) := by
  constructor
  · exact (c9_submit_guard (some pd0) "rawdata" "   ").1 (Or.inr (by decide))
  · exact (c9_submit_guard (some pd0) "rawdata" "  hi ").2
      ⟨"hi", "rawdata", pd0⟩ (by decide)

/-- Claim C10, counterexample: closing the modal after the run that consumed
response0 leaves previousSpec holding that run's specification, so the
builder state is not reset to the initial state, whose previousSpec is
null. -/
theorem c10_counterexample :
    (closeReset m0).builder.previousSpec = some spec0 ∧
    (getInitialState "pending").previousSpec = none ∧
    (closeReset m0).builder ≠ getInitialState "pending" := by
  decide

/-- Claim C10, amended: closing the modal clears hasStartedRef, apiResponse
and error and resets every builder field to the initial state — phase
analyzing, iteration zero, maxIterations three, currentSpec null, empty
validation errors, finalStatus null — except previousSpec: because the
reset dispatches the initial state as an UPDATE payload carrying a
currentSpec property, the reducer overrides the payload and sets
previousSpec to the currentSpec held at close. -/
theorem c10_close_reset (m : ModalState) :
    closeReset m =
      ⟨{ getInitialState "pending" with previousSpec := m.builder.currentSpec },
        none, none, false⟩ := rfl

end Dagger
